import Mathlib

/-
Verification development for the byf-backend repository.

We shallowly embed the challenge workflow (models/challengeModel.js,
controllers/challengeController.js), the account lifecycle
(controllers/userController.js, models/userModel.js) and the validation
middleware (middleware/validation.js) as executable Lean functions, and
prove the spec's testable properties about them.

Modelling conventions:
  - Mongo ObjectIds are Nat; Dates are Nat timestamps.
  - A stored collection is a List of documents; findById is List.find? on
    the id field; a successful save replaces the document with the same id.
  - Controller operations return a pair: the HTTP-level outcome
    (Except Err value) and the resulting stored collection.  Every failing
    branch in the JS code returns before any save call, so the collection
    component is the unchanged input store on every error path, mirroring
    the code.
  - mongoose validation runs inside save(); the validators of
    challengeSchema (required sender/message, maxlength ceilings, the
    future-date validator, the weight-class enum) are embedded in
    challengeValid, and the pre-save hooks (updatedAt refresh,
    self-challenge rejection) in Challenge.save.
  - populate only resolves usernames for display; identity comparisons in
    the controllers are on the underlying ids, which populate preserves.
-/

namespace BYF

/-- The status enum of challengeSchema. -/
inductive Status where
  | pending
  | accepted
  | declined
  | completed
  | cancelled
deriving DecidableEq

/-- The string stored for each status value. -/
def Status.toStr : Status → String
  | .pending => "pending"
  | .accepted => "accepted"
  | .declined => "declined"
  | .completed => "completed"
  | .cancelled => "cancelled"

/-- One entry of the messages array of challengeSchema.
sender is an Option because complete() pushes sender: null. -/
structure Message where
  sender : Option Nat
  message : String
  timestamp : Nat
  isSystemMessage : Bool
deriving DecidableEq

/-- The fightDetails subdocument; a field is none when absent. -/
structure FightDetails where
  proposedDate : Option Nat := none
  location : Option String := none
  rules : Option String := none
  weightClass : Option String := none
  stakes : Option String := none
deriving DecidableEq

/-- The responseDetails subdocument. -/
structure ResponseDetails where
  respondedAt : Option Nat := none
  responseMessage : Option String := none
deriving DecidableEq

/-- A challenge document. -/
structure Challenge where
  id : Nat
  challenger : Nat
  challenged : Nat
  status : Status := .pending
  fightDetails : FightDetails := {}
  messages : List Message := []
  responseDetails : ResponseDetails := {}
  relatedFight : Option Nat := none
  createdAt : Nat := 0
  updatedAt : Nat := 0
deriving DecidableEq

/-- The weightClass enum of challengeSchema.fightDetails. -/
def weightClasses : List String :=
  ["Flyweight", "Bantamweight", "Featherweight", "Lightweight",
   "Welterweight", "Middleweight", "Light Heavyweight", "Heavyweight",
   "Catchweight", "Open Weight"]

/-- JS String.prototype.trim on the challenge message templates
(whitespace characters that occur in this codebase's strings). -/
def isJsSpace (c : Char) : Bool :=
  c = ' ' || c = '\t' || c = '\n' || c = '\r'

/-- JS-style trim: strip leading and trailing whitespace. -/
def jsTrim (s : String) : String :=
  ⟨((s.data.dropWhile isJsSpace).reverse.dropWhile isJsSpace).reverse⟩

/-- mongoose validators of one messages entry: sender required,
message required (empty string fails required) with maxlength 1000. -/
def validMessage (m : Message) : Bool :=
  m.sender.isSome && decide (m.message ≠ "") && decide (m.message.length ≤ 1000)

/-- mongoose validators of fightDetails: future-date check on
proposedDate, maxlengths on the text fields, weightClass enum. -/
def validFightDetails (now : Nat) (fd : FightDetails) : Bool :=
  (match fd.proposedDate with | none => true | some d => decide (now < d)) &&
  (match fd.location with | none => true | some s => decide (s.length ≤ 200)) &&
  (match fd.rules with | none => true | some s => decide (s.length ≤ 1000)) &&
  (match fd.weightClass with | none => true | some s => weightClasses.contains s) &&
  (match fd.stakes with | none => true | some s => decide (s.length ≤ 500))

/-- mongoose validator of responseDetails: responseMessage maxlength 500. -/
def validResponseDetails (rd : ResponseDetails) : Bool :=
  match rd.responseMessage with | none => true | some s => decide (s.length ≤ 500)

/-- Document-level mongoose validation of challengeSchema, run on save
with the current time (the future-date validator compares to now). -/
def challengeValid (now : Nat) (c : Challenge) : Bool :=
  c.messages.all validMessage &&
  validFightDetails now c.fightDetails &&
  validResponseDetails c.responseDetails

/-- save(): the pre-save hooks (updatedAt refresh; self-challenge
rejection with 'A fighter cannot challenge themselves') followed by
mongoose document validation.  Nothing is persisted on error. -/
def Challenge.save (c : Challenge) (now : Nat) : Except String Challenge :=
  let c := { c with updatedAt := now }
  if c.challenger = c.challenged then
    .error "A fighter cannot challenge themselves"
  else if challengeValid now c then
    .ok c
  else
    .error "Challenge validation failed"

/-- this.messages.push of one entry (timestamp defaults to Date.now). -/
def Challenge.pushMessage (c : Challenge) (senderId : Option Nat)
    (text : String) (isSystem : Bool) (now : Nat) : Challenge :=
  { c with messages := c.messages ++
      [{ sender := senderId, message := text, timestamp := now, isSystemMessage := isSystem }] }

/-- The document mutation performed by challengeSchema.methods.accept
after its status guard: status, responseDetails, system message. -/
def Challenge.acceptDoc (c : Challenge) (responseMessage : String) (now : Nat) : Challenge :=
  ({ c with
      status := .accepted,
      responseDetails := { respondedAt := some now, responseMessage := some responseMessage } }
    ).pushMessage (some c.challenged)
      (jsTrim ("Challenge accepted! " ++ responseMessage)) true now

/-- challengeSchema.methods.accept. -/
def Challenge.accept (c : Challenge) (responseMessage : String) (now : Nat) :
    Except String Challenge :=
  if c.status ≠ .pending then
    .error ("Challenge cannot be accepted - current status: " ++ c.status.toStr)
  else
    (c.acceptDoc responseMessage now).save now

/-- The document mutation performed by challengeSchema.methods.decline
after its status guard. -/
def Challenge.declineDoc (c : Challenge) (responseMessage : String) (now : Nat) : Challenge :=
  ({ c with
      status := .declined,
      responseDetails := { respondedAt := some now, responseMessage := some responseMessage } }
    ).pushMessage (some c.challenged)
      (jsTrim ("Challenge declined. " ++ responseMessage)) true now

/-- challengeSchema.methods.decline. -/
def Challenge.decline (c : Challenge) (responseMessage : String) (now : Nat) :
    Except String Challenge :=
  if c.status ≠ .pending then
    .error ("Challenge cannot be declined - current status: " ++ c.status.toStr)
  else
    (c.declineDoc responseMessage now).save now

/-- The document mutation performed by challengeSchema.methods.cancel
after its status guard. -/
def Challenge.cancelDoc (c : Challenge) (reason : String) (now : Nat) : Challenge :=
  ({ c with status := .cancelled }).pushMessage (some c.challenger)
    (jsTrim ("Challenge cancelled. " ++ reason)) true now

/-- challengeSchema.methods.cancel: allowed from pending or accepted. -/
def Challenge.cancel (c : Challenge) (reason : String) (now : Nat) :
    Except String Challenge :=
  if ¬(c.status = .pending ∨ c.status = .accepted) then
    .error ("Challenge cannot be cancelled - current status: " ++ c.status.toStr)
  else
    (c.cancelDoc reason now).save now

/-- challengeSchema.methods.complete: requires status accepted, sets the
optional fight reference and pushes a message with sender: null. -/
def Challenge.complete (c : Challenge) (fightId : Option Nat) (now : Nat) :
    Except String Challenge :=
  if c.status ≠ .accepted then
    .error "Challenge cannot be completed - must be accepted first"
  else
    (({ c with relatedFight := match fightId with | some f => some f | none => c.relatedFight }
      ).pushMessage none "Challenge completed - fight has taken place!" true now).save now

/-- challengeSchema.methods.addMessage (isSystemMessage defaults false). -/
def Challenge.addMessage (c : Challenge) (senderId : Nat) (text : String) (now : Nat) :
    Except String Challenge :=
  (c.pushMessage (some senderId) text false now).save now

/-- challengeSchema.statics.existsBetweenUsers: findOne over both
orderings of the pair with status in the two active statuses. -/
def existsBetweenUsers (store : List Challenge) (user1Id user2Id : Nat) : Option Challenge :=
  store.find? (fun c =>
    decide (((c.challenger = user1Id ∧ c.challenged = user2Id) ∨
             (c.challenger = user2Id ∧ c.challenged = user1Id)) ∧
            (c.status = .pending ∨ c.status = .accepted)))

/-- Challenge.findById over the stored collection. -/
def findChallenge (store : List Challenge) (i : Nat) : Option Challenge :=
  store.find? (fun c => decide (c.id = i))

/-- Persisting a successfully saved document: replace by id. -/
def saveToStore (store : List Challenge) (c : Challenge) : List Challenge :=
  store.map (fun x => if x.id = c.id then c else x)

/-- An AppError as surfaced through the response envelope:
message, HTTP status, stable code. -/
structure Err where
  message : String
  status : Nat
  code : String
deriving DecidableEq

/-- The role enum of userSchema. -/
inductive Role where
  | fan
  | fighter
deriving DecidableEq

/-- The location subdocument of userSchema. -/
structure Location where
  city : Option String := none
  state : Option String := none
  country : Option String := none
deriving DecidableEq

/-- The socialLinks subdocument of userSchema. -/
structure SocialLinks where
  twitter : Option String := none
  instagram : Option String := none
  youtube : Option String := none
deriving DecidableEq

/-- The win/loss/draw record of userSchema. -/
structure FightRecord where
  wins : Nat := 0
  losses : Nat := 0
  draws : Nat := 0
deriving DecidableEq

/-- A user document (the fields the verified operations touch). -/
structure User where
  id : Nat
  username : String
  email : String
  password : String
  role : Role := .fan
  isFighter : Bool := false
  profilePicture : Option String := none
  age : Option Nat := none
  weight : Option Nat := none
  height : Option Nat := none
  record : FightRecord := {}
  challenges : List Nat := []
  location : Location := {}
  styles : List String := []
  customStyle : Option String := none
  socialLinks : SocialLinks := {}
deriving DecidableEq

/-- User.findById over the stored collection. -/
def findUser (users : List User) (i : Nat) : Option User :=
  users.find? (fun u => decide (u.id = i))

/-- Persisting a saved user document: replace by id. -/
def saveUser (users : List User) (u : User) : List User :=
  users.map (fun x => if x.id = u.id then u else x)

/-
Challenge controller (controllers/challengeController.js).  Each
operation returns the response outcome and the resulting stored
collection; every error branch occurs before any save, so it returns the
input collection unchanged.
-/

/-- createChallenge: fighter checks, self-challenge check, active-pair
existence check, then Challenge.create (which runs save validation).
The new document id and the current time are explicit parameters. -/
def createChallenge (users : List User) (store : List Challenge)
    (challengerId challengedId : Nat) (fightDetails : FightDetails)
    (message : String) (newId now : Nat) :
    Except Err Challenge × List Challenge :=
  match findUser users challengerId with
  | none => (.error ⟨"Only fighters can create challenges", 403, "NOT_FIGHTER"⟩, store)
  | some challenger =>
    if !challenger.isFighter then
      (.error ⟨"Only fighters can create challenges", 403, "NOT_FIGHTER"⟩, store)
    else
      match findUser users challengedId with
      | none => (.error ⟨"Challenged fighter not found", 404, "FIGHTER_NOT_FOUND"⟩, store)
      | some challenged =>
        if !challenged.isFighter then
          (.error ⟨"You can only challenge fighters", 400, "TARGET_NOT_FIGHTER"⟩, store)
        else if challengerId = challengedId then
          (.error ⟨"You cannot challenge yourself", 400, "SELF_CHALLENGE"⟩, store)
        else if (existsBetweenUsers store challengerId challengedId).isSome then
          (.error ⟨"An active challenge already exists between you and this fighter",
                   409, "CHALLENGE_EXISTS"⟩, store)
        else
          let c : Challenge :=
            { id := newId, challenger := challengerId, challenged := challengedId,
              fightDetails := fightDetails,
              messages := [{ sender := some challengerId, message := message,
                             timestamp := now, isSystemMessage := false }],
              createdAt := now, updatedAt := now }
          match c.save now with
          | .error m => (.error ⟨m, 400, "VALIDATION_ERROR"⟩, store)
          | .ok c2 => (.ok c2, store ++ [c2])

/-- acceptChallenge: not-found check, challenged-actor check, then the
model method; a thrown method error is wrapped as CHALLENGE_ACTION_ERROR. -/
def acceptChallenge (store : List Challenge) (challengeId userId : Nat)
    (responseMessage : String) (now : Nat) :
    Except Err Challenge × List Challenge :=
  match findChallenge store challengeId with
  | none => (.error ⟨"Challenge not found", 404, "CHALLENGE_NOT_FOUND"⟩, store)
  | some c =>
    if c.challenged ≠ userId then
      (.error ⟨"You can only accept challenges sent to you", 403, "NOT_AUTHORIZED"⟩, store)
    else
      match c.accept responseMessage now with
      | .error m => (.error ⟨m, 400, "CHALLENGE_ACTION_ERROR"⟩, store)
      | .ok c2 => (.ok c2, saveToStore store c2)

/-- declineChallenge: symmetric to acceptChallenge. -/
def declineChallenge (store : List Challenge) (challengeId userId : Nat)
    (responseMessage : String) (now : Nat) :
    Except Err Challenge × List Challenge :=
  match findChallenge store challengeId with
  | none => (.error ⟨"Challenge not found", 404, "CHALLENGE_NOT_FOUND"⟩, store)
  | some c =>
    if c.challenged ≠ userId then
      (.error ⟨"You can only decline challenges sent to you", 403, "NOT_AUTHORIZED"⟩, store)
    else
      match c.decline responseMessage now with
      | .error m => (.error ⟨m, 400, "CHALLENGE_ACTION_ERROR"⟩, store)
      | .ok c2 => (.ok c2, saveToStore store c2)

/-- cancelChallenge: not-found check, challenger-actor check, then the
model method. -/
def cancelChallenge (store : List Challenge) (challengeId userId : Nat)
    (reason : String) (now : Nat) :
    Except Err Challenge × List Challenge :=
  match findChallenge store challengeId with
  | none => (.error ⟨"Challenge not found", 404, "CHALLENGE_NOT_FOUND"⟩, store)
  | some c =>
    if c.challenger ≠ userId then
      (.error ⟨"You can only cancel challenges you created", 403, "NOT_AUTHORIZED"⟩, store)
    else
      match c.cancel reason now with
      | .error m => (.error ⟨m, 400, "CHALLENGE_ACTION_ERROR"⟩, store)
      | .ok c2 => (.ok c2, saveToStore store c2)

/-- Username of a populated participant reference (the controllers only
run this after confirming the document exists). -/
def usernameOf (users : List User) (uid : Nat) : String :=
  match findUser users uid with
  | some u => u.username
  | none => ""

/-- The JS spread merge of two fightDetails objects: a field present in
the update takes the new value, a field absent keeps the old one. -/
def FightDetails.merge (old upd : FightDetails) : FightDetails :=
  { proposedDate := match upd.proposedDate with | some v => some v | none => old.proposedDate,
    location := match upd.location with | some v => some v | none => old.location,
    rules := match upd.rules with | some v => some v | none => old.rules,
    weightClass := match upd.weightClass with | some v => some v | none => old.weightClass,
    stakes := match upd.stakes with | some v => some v | none => old.stakes }

/-- updateChallengeDetails: not-found check, participant check,
pending-or-accepted status check with code INVALID_STATUS, spread merge
of the supplied fight details, system message naming the updater, save.
A save-time validation failure surfaces via the global error handler as
VALIDATION_ERROR. -/
def updateChallengeDetails (users : List User) (store : List Challenge)
    (challengeId userId : Nat) (fightDetails : FightDetails) (now : Nat) :
    Except Err Challenge × List Challenge :=
  match findChallenge store challengeId with
  | none => (.error ⟨"Challenge not found", 404, "CHALLENGE_NOT_FOUND"⟩, store)
  | some c =>
    if ¬(c.challenger = userId ∨ c.challenged = userId) then
      (.error ⟨"You can only update challenges you are part of", 403, "NOT_AUTHORIZED"⟩, store)
    else if ¬(c.status = .pending ∨ c.status = .accepted) then
      (.error ⟨"Challenge details can only be updated for pending or accepted challenges",
               400, "INVALID_STATUS"⟩, store)
    else
      let updaterName :=
        if c.challenger = userId then usernameOf users c.challenger
        else usernameOf users c.challenged
      let c2 := ({ c with fightDetails := c.fightDetails.merge fightDetails }
                  ).pushMessage (some userId) (updaterName ++ " updated the fight details") true now
      match c2.save now with
      | .error m => (.error ⟨m, 400, "VALIDATION_ERROR"⟩, store)
      | .ok c3 => (.ok c3, saveToStore store c3)

/-- addMessageToChallenge: not-found check, participant check,
pending-or-accepted status check with code INVALID_STATUS, then the
addMessage model method. -/
def addMessageToChallenge (store : List Challenge)
    (challengeId userId : Nat) (message : String) (now : Nat) :
    Except Err Challenge × List Challenge :=
  match findChallenge store challengeId with
  | none => (.error ⟨"Challenge not found", 404, "CHALLENGE_NOT_FOUND"⟩, store)
  | some c =>
    if ¬(c.challenger = userId ∨ c.challenged = userId) then
      (.error ⟨"You can only send messages in challenges you are part of",
               403, "NOT_AUTHORIZED"⟩, store)
    else if ¬(c.status = .pending ∨ c.status = .accepted) then
      (.error ⟨"Messages can only be sent in pending or accepted challenges",
               400, "INVALID_STATUS"⟩, store)
    else
      match c.addMessage userId message now with
      | .error m => (.error ⟨m, 400, "VALIDATION_ERROR"⟩, store)
      | .ok c2 => (.ok c2, saveToStore store c2)

/-- The Mongo query built by getMyChallenges: a role filter string equal
to 'challenger' or 'challenged' restricts to that side, any other role
value selects either side; an optional status string must equal the
stored status.  Does one stored document match the query? -/
def myChallengesMatch (userId : Nat) (role status : Option String) (c : Challenge) : Bool :=
  (if role = some "challenger" then decide (c.challenger = userId)
   else if role = some "challenged" then decide (c.challenged = userId)
   else decide (c.challenger = userId ∨ c.challenged = userId)) &&
  (match status with | none => true | some s => decide (c.status.toStr = s))

/-- The match set of getMyChallenges' query over the stored collection
(sorting and skip/limit pagination then select within this set). -/
def getMyChallenges (store : List Challenge) (userId : Nat)
    (role status : Option String) : List Challenge :=
  store.filter (myChallengesMatch userId role status)

/-- challengeSchema.statics.getUserChallenges: either-side membership
with an optional status filter, no pagination. -/
def getUserChallenges (store : List Challenge) (userId : Nat)
    (status : Option String) : List Challenge :=
  store.filter (fun c =>
    decide (c.challenger = userId ∨ c.challenged = userId) &&
    (match status with | none => true | some s => decide (c.status.toStr = s)))

/-
User controller (controllers/userController.js).
-/

/-- signup: duplicate username-or-email check, then User.create with the
schema defaults role='fan', isFighter=false (the password is stored as
the bcrypt hash; hashing is injective-opaque here). -/
def signup (users : List User) (username email passwordHash : String)
    (newId : Nat) : Except Err User × List User :=
  match users.find? (fun u => decide (u.username = username ∨ u.email = email)) with
  | some existing =>
    let field := if existing.username = username then "username" else "email"
    (.error ⟨"A user with this " ++ field ++ " already exists", 409, "DUPLICATE_USER"⟩, users)
  | none =>
    let u : User := { id := newId, username := username, email := email,
                      password := passwordHash }
    (.ok u, users ++ [u])

/-- stepIntoTheCage: not-found check, already-a-fighter check, then the
single save that sets both isFighter=true and role='fighter'. -/
def stepIntoTheCage (users : List User) (userId : Nat) :
    Except Err User × List User :=
  match findUser users userId with
  | none => (.error ⟨"User not found", 404, "USER_NOT_FOUND"⟩, users)
  | some u =>
    if u.isFighter then
      (.error ⟨"You are already a fighter!", 400, "ALREADY_FIGHTER"⟩, users)
    else
      let u2 := { u with isFighter := true, role := .fighter }
      (.ok u2, saveUser users u2)

/-- The payload accepted by the updateProfile Joi schema (the
middleware validates with stripUnknown, so only these keys survive). -/
structure UpdateProfileInput where
  username : Option String := none
  email : Option String := none
  socialLinks : Option SocialLinks := none
deriving DecidableEq

/-- findByIdAndUpdate with an updateProfile payload: set each supplied
field, leave everything else (role and isFighter included) untouched. -/
def applyProfileUpdate (u : User) (upd : UpdateProfileInput) : User :=
  { u with
    username := match upd.username with | some v => v | none => u.username,
    email := match upd.email with | some v => v | none => u.email,
    socialLinks := match upd.socialLinks with | some v => v | none => u.socialLinks }

/-- updateMyProfile: when a new username or email is supplied, reject if
it collides with a different account; then findByIdAndUpdate with the
validated payload.  (The source names the colliding field in the error
message; the code/status pair is what matters here.) -/
def updateMyProfile (users : List User) (userId : Nat)
    (upd : UpdateProfileInput) : Except Err User × List User :=
  if (upd.username.isSome ∨ upd.email.isSome) ∧
     (users.find? (fun o => decide (o.id ≠ userId ∧
        ((∃ v, upd.username = some v ∧ o.username = v) ∨
         (∃ v, upd.email = some v ∧ o.email = v))))).isSome then
    (.error ⟨"This username or email is already taken", 409, "DUPLICATE_FIELD"⟩, users)
  else
    match findUser users userId with
    | none => (.error ⟨"User not found", 404, "USER_NOT_FOUND"⟩, users)
    | some u =>
      let u2 := applyProfileUpdate u upd
      (.ok u2, saveUser users u2)

/-- The payload accepted by the updateFighterProfile Joi schema. -/
structure UpdateFighterInput where
  weight : Option Nat := none
  height : Option Nat := none
  age : Option Nat := none
  styles : Option (List String) := none
  customStyle : Option String := none
  location : Option Location := none
  profilePicture : Option String := none
  socialLinks : Option SocialLinks := none
deriving DecidableEq

/-- findByIdAndUpdate with an updateFighterProfile payload: set each
supplied field, leave everything else (role and isFighter included)
untouched. -/
def applyFighterUpdate (u : User) (upd : UpdateFighterInput) : User :=
  { u with
    weight := match upd.weight with | some v => some v | none => u.weight,
    height := match upd.height with | some v => some v | none => u.height,
    age := match upd.age with | some v => some v | none => u.age,
    styles := match upd.styles with | some v => v | none => u.styles,
    customStyle := match upd.customStyle with | some v => some v | none => u.customStyle,
    location := match upd.location with | some v => v | none => u.location,
    profilePicture := match upd.profilePicture with | some v => some v | none => u.profilePicture,
    socialLinks := match upd.socialLinks with | some v => v | none => u.socialLinks }

/-- updateFighterProfile: not-found check, isFighter authorization
check, then findByIdAndUpdate with the validated payload. -/
def updateFighterProfile (users : List User) (userId : Nat)
    (upd : UpdateFighterInput) : Except Err User × List User :=
  match findUser users userId with
  | none => (.error ⟨"User not found", 404, "USER_NOT_FOUND"⟩, users)
  | some u =>
    if !u.isFighter then
      (.error ⟨"Only fighters can update fighter details", 403, "NOT_FIGHTER"⟩, users)
    else
      let u2 := applyFighterUpdate u upd
      (.ok u2, saveUser users u2)

/-
Validation middleware (middleware/validation.js).
-/

/-- The keys of the schemas object declared in middleware/validation.js;
no challenge-related schema is declared. -/
def schemaNames : List String :=
  ["signup", "signin", "updateProfile", "updateFighterProfile",
   "fighterQuery", "placeBet", "addComment"]

/-- Outcome of the validateInput middleware factory at request time. -/
inductive ValidateOutcome where
  | schemaError
  | validationError
  | proceed
deriving DecidableEq

/-- validateInput(schemaName): an unknown schema name responds 500
SCHEMA_ERROR before any validation; otherwise the Joi validate call
(abstracted to its boolean verdict on the request data) either responds
400 VALIDATION_ERROR or passes control to the next handler. -/
def validateInput (schemaName : String) (dataValid : Bool) : ValidateOutcome :=
  if !(schemaNames.contains schemaName) then .schemaError
  else if !dataValid then .validationError
  else .proceed

/-- A route wired as validateInput(schemaName) followed by a controller:
the controller body runs only when the middleware calls next(). -/
def routeHandle {α : Type} (schemaName : String) (dataValid : Bool)
    (controller : Unit → α) : Except Err α :=
  match validateInput schemaName dataValid with
  | .schemaError => .error ⟨"Validation schema not found", 500, "SCHEMA_ERROR"⟩
  | .validationError => .error ⟨"Validation failed", 400, "VALIDATION_ERROR"⟩
  | .proceed => .ok (controller ())

/-- The schema names the challenge routes pass to validateInput
(routes/challengeRoutes.js). -/
def challengeRouteSchemas : List String :=
  ["createChallenge", "acceptChallenge", "declineChallenge", "cancelChallenge",
   "updateChallengeDetails", "addChallengeMessage", "challengeQuery"]

/-
getAllFighters (controllers/userController.js) and the semantics of the
location filters it builds with new RegExp(value, 'i').  We embed the
JavaScript regex fragment these patterns can use when no escaping is
performed: literal characters, the any-character dot, and top-level
alternation with a vertical bar.  Patterns using other metacharacters
are outside the embedded fragment and parse to none.
-/

/-- One atom of the embedded regex fragment. -/
inductive RAtom where
  | lit (c : Char)
  | dot
deriving DecidableEq

/-- Characters of the unembedded part of the JS regex metasyntax. -/
def unsupportedMeta : List Char :=
  ['\\', '*', '+', '?', '(', ')', '[', ']', '^', '$']

/-- Split a pattern on top-level vertical bars into branches of atoms,
reading '.' as the any-character atom. -/
def splitAlt : List Char → List (List RAtom)
  | [] => [[]]
  | c :: cs =>
    let rest := splitAlt cs
    if c = '|' then [] :: rest
    else
      match rest with
      | [] => [[if c = '.' then RAtom.dot else RAtom.lit c]]
      | b :: bs => ((if c = '.' then RAtom.dot else RAtom.lit c) :: b) :: bs

/-- Parse a pattern of the embedded fragment. -/
def parsePattern (p : String) : Option (List (List RAtom)) :=
  if p.data.any (fun c => unsupportedMeta.contains c) then none
  else some (splitAlt p.data)

/-- Case-insensitive atom match (the 'i' flag). -/
def atomMatch (a : RAtom) (c : Char) : Bool :=
  match a with
  | .lit l => l.toLower = c.toLower
  | .dot => true

/-- Does a branch match a prefix of the text? -/
def branchMatchHere : List RAtom → List Char → Bool
  | [], _ => true
  | _ :: _, [] => false
  | a :: as, c :: cs => atomMatch a c && branchMatchHere as cs

/-- All suffixes of a character list (the candidate match positions). -/
def suffixesOf : List Char → List (List Char)
  | [] => [[]]
  | c :: cs => (c :: cs) :: suffixesOf cs

/-- RegExp(pattern, 'i').test(s): some branch matches at some position. -/
def regexTestCI (pattern s : String) : Bool :=
  match parsePattern pattern with
  | none => false
  | some branches =>
    (suffixesOf s.data).any (fun suf => branches.any (fun b => branchMatchHere b suf))

/-- Does the character list n occur starting at the head of h? -/
def litStartsAt : List Char → List Char → Bool
  | [], _ => true
  | _ :: _, [] => false
  | a :: as, c :: cs => a = c && litStartsAt as cs

/-- Literal substring containment (what an escaped filter would test). -/
def containsLit (needle hay : String) : Bool :=
  (suffixesOf hay.data).any (litStartsAt needle.data)

/-- The validated query parameters of getAllFighters. -/
structure FighterQuery where
  weight : Option Nat := none
  height : Option Nat := none
  styles : Option (List String) := none
  city : Option String := none
  state : Option String := none
  country : Option String := none
deriving DecidableEq

/-- Does a user document match the Mongo query getAllFighters builds?
isFighter: true always; exact weight/height when supplied; styles $in
the comma-split list; location fields tested by the unescaped
case-insensitive RegExp (a document missing the field never matches). -/
def fighterMatches (q : FighterQuery) (u : User) : Bool :=
  u.isFighter &&
  (match q.weight with | none => true | some w => decide (u.weight = some w)) &&
  (match q.height with | none => true | some h => decide (u.height = some h)) &&
  (match q.styles with
   | none => true
   | some arr => u.styles.any (fun st => arr.contains st)) &&
  (match q.city with
   | none => true
   | some p => match u.location.city with | none => false | some v => regexTestCI p v) &&
  (match q.state with
   | none => true
   | some p => match u.location.state with | none => false | some v => regexTestCI p v) &&
  (match q.country with
   | none => true
   | some p => match u.location.country with | none => false | some v => regexTestCI p v)

/-- The match set of getAllFighters' query (sorting and skip/limit
pagination then select within this set). -/
def getAllFighters (users : List User) (q : FighterQuery) : List User :=
  users.filter (fighterMatches q)

/-- One step of the account-store lifecycle: the persisted effect of one
of the user-store operations (signup, become-fighter, the two
profile-update endpoints). -/
inductive Step : List User → List User → Prop where
  | signup (users : List User) (un em pw : String) (newId : Nat) :
      Step users (signup users un em pw newId).2
  | becomeFighter (users : List User) (uid : Nat) :
      Step users (stepIntoTheCage users uid).2
  | updateProfile (users : List User) (uid : Nat) (upd : UpdateProfileInput) :
      Step users (updateMyProfile users uid upd).2
  | updateFighter (users : List User) (uid : Nat) (upd : UpdateFighterInput) :
      Step users (updateFighterProfile users uid upd).2

/-- Account stores reachable from the empty store through the user-store
operations. -/
inductive Reachable : List User → Prop where
  | base : Reachable []
  | step {s s' : List User} : Reachable s → Step s s' → Reachable s'

deriving instance DecidableEq for Except

/-
Helper lemmas.
-/

theorem mem_saveToStore {store : List Challenge} {c x : Challenge}
    (h : x ∈ saveToStore store c) : x = c ∨ x ∈ store := by
  simp only [saveToStore, List.mem_map] at h
  obtain ⟨y, hy, hxy⟩ := h
  by_cases hid : y.id = c.id
  · left; simp [hid] at hxy; exact hxy.symm
  · right; simp [hid] at hxy; exact hxy ▸ hy

theorem mem_saveUser {users : List User} {u x : User}
    (h : x ∈ saveUser users u) : x = u ∨ x ∈ users := by
  simp only [saveUser, List.mem_map] at h
  obtain ⟨y, hy, hxy⟩ := h
  by_cases hid : y.id = u.id
  · left; simp [hid] at hxy; exact hxy.symm
  · right; simp [hid] at hxy; exact hxy ▸ hy

theorem save_ok_fields {c d : Challenge} {now : Nat}
    (h : c.save now = .ok d) : d = { c with updatedAt := now } := by
  simp only [Challenge.save] at h
  split at h
  · exact absurd h (by simp)
  · split at h
    · cases h; rfl
    · exact absurd h (by simp)

/-
Claim theorems.
-/

/-- C2: the challenge routes are wired through validateInput with the
schema names of challengeRouteSchemas, none of which is a key of the
schemas object, so the middleware responds 500 SCHEMA_ERROR for every
request body or query, valid or not, and the wired controller is never
invoked. -/
theorem C2_schema_missing :
    ∀ n ∈ challengeRouteSchemas, ∀ (dataValid : Bool) {α : Type} (controller : Unit → α),
      routeHandle n dataValid controller =
        .error ⟨"Validation schema not found", 500, "SCHEMA_ERROR"⟩ := by
  intro n hn dataValid α controller
  simp only [challengeRouteSchemas, List.mem_cons, List.not_mem_nil, or_false] at hn
  rcases hn with h | h | h | h | h | h | h <;> subst h <;> rfl

/-- Witness for C2 at the create-challenge route with a valid body. -/
theorem C2_schema_missing_witness :
    "createChallenge" ∈ challengeRouteSchemas ∧
    routeHandle "createChallenge" true (fun _ => (0 : Nat)) =
      .error ⟨"Validation schema not found", 500, "SCHEMA_ERROR"⟩ :=
  ⟨by decide, C2_schema_missing "createChallenge" (by decide) true (fun _ => (0 : Nat))⟩

/-- C10: the city filter of getAllFighters is an unescaped
case-insensitive RegExp, so it performs regex matching, not literal
substring matching: the query value "." (and likewise "a|b") selects a
fighter whose stored city does not contain the query text literally. -/
theorem C10_regex_location_filter :
    getAllFighters
      [{ id := 1, username := "x", email := "e", password := "p", role := .fighter,
         isFighter := true, location := { city := some "X" } }]
      { city := some "." } =
      [{ id := 1, username := "x", email := "e", password := "p", role := .fighter,
         isFighter := true, location := { city := some "X" } }] ∧
    containsLit "." "X" = false ∧
    getAllFighters
      [{ id := 2, username := "y", email := "f", password := "p", role := .fighter,
         isFighter := true, location := { city := some "Cairo" } }]
      { city := some "a|b" } =
      [{ id := 2, username := "y", email := "f", password := "p", role := .fighter,
         isFighter := true, location := { city := some "Cairo" } }] ∧
    containsLit "a|b" "Cairo" = false := by
  refine ⟨by decide, by decide, by decide, by decide⟩

/-- C1 counterexample: accepting an already-accepted challenge, as its
challenged participant, fails with error code CHALLENGE_ACTION_ERROR,
not INVALID_STATUS as the claim states; the store is unchanged. -/
theorem C1_counterexample :
    (match (acceptChallenge
        [{ id := 10, challenger := 1, challenged := 2, status := .accepted,
           messages := [{ sender := some 1, message := "hi", timestamp := 0,
                          isSystemMessage := false }] }] 10 2 "" 5).1 with
     | .error e => e.code
     | .ok _ => "OK") = "CHALLENGE_ACTION_ERROR" ∧
    decide ((match (acceptChallenge
        [{ id := 10, challenger := 1, challenged := 2, status := .accepted,
           messages := [{ sender := some 1, message := "hi", timestamp := 0,
                          isSystemMessage := false }] }] 10 2 "" 5).1 with
     | .error e => e.code
     | .ok _ => "OK") = "INVALID_STATUS") = false ∧
    (acceptChallenge
        [{ id := 10, challenger := 1, challenged := 2, status := .accepted,
           messages := [{ sender := some 1, message := "hi", timestamp := 0,
                          isSystemMessage := false }] }] 10 2 "" 5).2 =
      [{ id := 10, challenger := 1, challenged := 2, status := .accepted,
         messages := [{ sender := some 1, message := "hi", timestamp := 0,
                        isSystemMessage := false }] }] := by
  refine ⟨by decide, by decide, by decide⟩

/-- C3 counterexample: a self-challenge by an id with no stored account
fails with NOT_FIGHTER (the fighter check runs first), not with
SELF_CHALLENGE as the claim states for all account states. -/
theorem C3_counterexample :
    (createChallenge [] [] 7 7 {} "hi" 1 0).1 =
      .error ⟨"Only fighters can create challenges", 403, "NOT_FIGHTER"⟩ ∧
    decide ((createChallenge [] [] 7 7 {} "hi" 1 0).1 =
      .error ⟨"You cannot challenge yourself", 400, "SELF_CHALLENGE"⟩) = false := by
  refine ⟨by decide, by decide⟩

/-- C4 counterexample: an active pending challenge between 1 and 2
exists, yet Create(1,2) fails with NOT_FIGHTER (no stored account for
the caller), not with 409 CHALLENGE_EXISTS, so the stated iff fails in
the right-to-left direction. -/
theorem C4_counterexample :
    (existsBetweenUsers
      [{ id := 1, challenger := 1, challenged := 2, status := .pending,
         messages := [{ sender := some 1, message := "hi", timestamp := 0,
                        isSystemMessage := false }] }] 1 2).isSome = true ∧
    (createChallenge []
      [{ id := 1, challenger := 1, challenged := 2, status := .pending,
         messages := [{ sender := some 1, message := "hi", timestamp := 0,
                        isSystemMessage := false }] }] 1 2 {} "hi" 9 5).1 =
      .error ⟨"Only fighters can create challenges", 403, "NOT_FIGHTER"⟩ ∧
    decide ((createChallenge []
      [{ id := 1, challenger := 1, challenged := 2, status := .pending,
         messages := [{ sender := some 1, message := "hi", timestamp := 0,
                        isSystemMessage := false }] }] 1 2 {} "hi" 9 5).1 =
      .error ⟨"An active challenge already exists between you and this fighter",
              409, "CHALLENGE_EXISTS"⟩) = false := by
  refine ⟨by decide, by decide, by decide⟩

/-- C1 amended: a workflow action attempted from a status not listed for
it in the transition table fails and leaves the stored collection
unchanged, but the surfaced error differs by action: accept, decline and
cancel fail with code CHALLENGE_ACTION_ERROR and a message naming the
current status; update-details and add-message fail with code
INVALID_STATUS and a message that does not name the current status; the
complete model method rejects with a message that does not name the
current status (its controller route is not wired). -/
theorem C1_amended :
    (∀ store cid c uid rm now, findChallenge store cid = some c → uid = c.challenged →
       c.status ≠ .pending →
       acceptChallenge store cid uid rm now =
         (.error ⟨"Challenge cannot be accepted - current status: " ++ c.status.toStr,
                  400, "CHALLENGE_ACTION_ERROR"⟩, store)) ∧
    (∀ store cid c uid rm now, findChallenge store cid = some c → uid = c.challenged →
       c.status ≠ .pending →
       declineChallenge store cid uid rm now =
         (.error ⟨"Challenge cannot be declined - current status: " ++ c.status.toStr,
                  400, "CHALLENGE_ACTION_ERROR"⟩, store)) ∧
    (∀ store cid c uid rs now, findChallenge store cid = some c → uid = c.challenger →
       ¬(c.status = .pending ∨ c.status = .accepted) →
       cancelChallenge store cid uid rs now =
         (.error ⟨"Challenge cannot be cancelled - current status: " ++ c.status.toStr,
                  400, "CHALLENGE_ACTION_ERROR"⟩, store)) ∧
    (∀ (c : Challenge) fid now, c.status ≠ .accepted →
       c.complete fid now = .error "Challenge cannot be completed - must be accepted first") ∧
    (∀ users store cid c uid fd now, findChallenge store cid = some c →
       (uid = c.challenger ∨ uid = c.challenged) →
       ¬(c.status = .pending ∨ c.status = .accepted) →
       updateChallengeDetails users store cid uid fd now =
         (.error ⟨"Challenge details can only be updated for pending or accepted challenges",
                  400, "INVALID_STATUS"⟩, store)) ∧
    (∀ store cid c uid msg now, findChallenge store cid = some c →
       (uid = c.challenger ∨ uid = c.challenged) →
       ¬(c.status = .pending ∨ c.status = .accepted) →
       addMessageToChallenge store cid uid msg now =
         (.error ⟨"Messages can only be sent in pending or accepted challenges",
                  400, "INVALID_STATUS"⟩, store)) := by
  refine ⟨?_, ?_, ?_, ?_, ?_, ?_⟩
  · intro store cid c uid rm now h1 h2 h3
    subst h2
    simp [acceptChallenge, h1, Challenge.accept, h3]
  · intro store cid c uid rm now h1 h2 h3
    subst h2
    simp [declineChallenge, h1, Challenge.decline, h3]
  · intro store cid c uid rs now h1 h2 h3
    subst h2
    simp only [cancelChallenge, h1]
    rw [if_neg (by simp)]
    simp [Challenge.cancel, h3]
  · intro c fid now h
    simp [Challenge.complete, h]
  · intro users store cid c uid fd now h1 h2 h3
    have hpart : c.challenger = uid ∨ c.challenged = uid := by
      rcases h2 with h | h
      · exact Or.inl h.symm
      · exact Or.inr h.symm
    simp only [updateChallengeDetails, h1]
    rw [if_neg (by simp [hpart]), if_pos h3]
  · intro store cid c uid msg now h1 h2 h3
    have hpart : c.challenger = uid ∨ c.challenged = uid := by
      rcases h2 with h | h
      · exact Or.inl h.symm
      · exact Or.inr h.symm
    simp only [addMessageToChallenge, h1]
    rw [if_neg (by simp [hpart]), if_pos h3]

/-- Witness for C1 amended: a declined challenge rejects all six wrong-
status actions with the stated errors and stays unchanged in the store. -/
theorem C1_amended_witness :
    acceptChallenge
      [{ id := 3, challenger := 1, challenged := 2, status := .declined,
         messages := [{ sender := some 1, message := "hi", timestamp := 0,
                        isSystemMessage := false }] }] 3 2 "" 7 =
      (.error ⟨"Challenge cannot be accepted - current status: declined",
               400, "CHALLENGE_ACTION_ERROR"⟩,
       [{ id := 3, challenger := 1, challenged := 2, status := .declined,
          messages := [{ sender := some 1, message := "hi", timestamp := 0,
                         isSystemMessage := false }] }]) ∧
    Challenge.complete
      { id := 3, challenger := 1, challenged := 2, status := .declined,
        messages := [{ sender := some 1, message := "hi", timestamp := 0,
                       isSystemMessage := false }] } none 7 =
      .error "Challenge cannot be completed - must be accepted first" ∧
    updateChallengeDetails []
      [{ id := 3, challenger := 1, challenged := 2, status := .declined,
         messages := [{ sender := some 1, message := "hi", timestamp := 0,
                        isSystemMessage := false }] }] 3 1 {} 7 =
      (.error ⟨"Challenge details can only be updated for pending or accepted challenges",
               400, "INVALID_STATUS"⟩,
       [{ id := 3, challenger := 1, challenged := 2, status := .declined,
          messages := [{ sender := some 1, message := "hi", timestamp := 0,
                         isSystemMessage := false }] }]) :=
  ⟨C1_amended.1
      [{ id := 3, challenger := 1, challenged := 2, status := .declined,
         messages := [{ sender := some 1, message := "hi", timestamp := 0,
                        isSystemMessage := false }] }] 3
      { id := 3, challenger := 1, challenged := 2, status := .declined,
        messages := [{ sender := some 1, message := "hi", timestamp := 0,
                       isSystemMessage := false }] } 2 "" 7 (by decide) (by decide) (by decide),
   C1_amended.2.2.2.1
      { id := 3, challenger := 1, challenged := 2, status := .declined,
        messages := [{ sender := some 1, message := "hi", timestamp := 0,
                       isSystemMessage := false }] } none 7 (by decide),
   C1_amended.2.2.2.2.1 []
      [{ id := 3, challenger := 1, challenged := 2, status := .declined,
         messages := [{ sender := some 1, message := "hi", timestamp := 0,
                        isSystemMessage := false }] }] 3
      { id := 3, challenger := 1, challenged := 2, status := .declined,
        messages := [{ sender := some 1, message := "hi", timestamp := 0,
                       isSystemMessage := false }] } 1 {} 7 (by decide)
      (Or.inl (by decide)) (by decide)⟩

/-- C3 amended: a self-challenge fails with SELF_CHALLENGE whenever the
caller's account exists and is a fighter (the challenged lookup then
finds the same fighter account); when the caller's account is missing or
not a fighter, the earlier fighter check fails the request with
NOT_FIGHTER instead. -/
theorem C3_amended :
    ∀ users store uid u fd msg nid now,
      findUser users uid = some u → u.isFighter = true →
      createChallenge users store uid uid fd msg nid now =
        (.error ⟨"You cannot challenge yourself", 400, "SELF_CHALLENGE"⟩, store) := by
  intro users store uid u fd msg nid now h1 h2
  simp [createChallenge, h1, h2]

/-- Witness for C3 amended: a stored fighter challenging themselves. -/
theorem C3_amended_witness :
    createChallenge
      [{ id := 7, username := "a", email := "a@x", password := "p", role := .fighter,
         isFighter := true }] [] 7 7 {} "hi" 1 0 =
      (.error ⟨"You cannot challenge yourself", 400, "SELF_CHALLENGE"⟩, []) :=
  C3_amended
    [{ id := 7, username := "a", email := "a@x", password := "p", role := .fighter,
       isFighter := true }] [] 7
    { id := 7, username := "a", email := "a@x", password := "p", role := .fighter,
      isFighter := true } {} "hi" 1 0 (by decide) (by decide)

/-- C4 amended: when the caller and target accounts both exist and are
fighters and differ, Create fails with 409 CHALLENGE_EXISTS exactly when
an active challenge between the pair exists; and the existence check
holds exactly when the store has a challenge over the pair in either
orientation whose status is pending or accepted. -/
theorem C4_amended :
    ∀ users store a b ua ub fd msg nid now,
      findUser users a = some ua → ua.isFighter = true →
      findUser users b = some ub → ub.isFighter = true →
      a ≠ b →
      (((createChallenge users store a b fd msg nid now).1 =
          .error ⟨"An active challenge already exists between you and this fighter",
                  409, "CHALLENGE_EXISTS"⟩) ↔
        (existsBetweenUsers store a b).isSome = true) ∧
      ((existsBetweenUsers store a b).isSome = true ↔
        ∃ c ∈ store,
          ((c.challenger = a ∧ c.challenged = b) ∨ (c.challenger = b ∧ c.challenged = a)) ∧
          (c.status = Status.pending ∨ c.status = Status.accepted)) := by
  intro users store a b ua ub fd msg nid now h1 h2 h3 h4 hab
  constructor
  · simp only [createChallenge, h1, h2, h3, h4, Bool.not_true, Bool.false_eq_true, if_false]
    rw [if_neg hab]
    by_cases hex : (existsBetweenUsers store a b).isSome = true
    · simp [hex]
    · rw [if_neg hex]
      constructor
      · intro h
        split at h
        · simp at h
        · simp at h
      · intro h
        exact absurd h hex
  · simp only [existsBetweenUsers, List.find?_isSome]
    constructor
    · rintro ⟨c, hc, hp⟩
      exact ⟨c, hc, by simpa using hp⟩
    · rintro ⟨c, hc, hp⟩
      exact ⟨c, hc, by simpa using hp⟩

/-- Witness for C4 amended: two stored fighters with an active pending
challenge between them. -/
theorem C4_amended_witness :
    (((createChallenge
        [{ id := 1, username := "a", email := "a@x", password := "p", role := .fighter,
           isFighter := true },
         { id := 2, username := "b", email := "b@x", password := "p", role := .fighter,
           isFighter := true }]
        [{ id := 5, challenger := 1, challenged := 2, status := .pending,
           messages := [{ sender := some 1, message := "hi", timestamp := 0,
                          isSystemMessage := false }] }] 1 2 {} "again" 9 5).1 =
        .error ⟨"An active challenge already exists between you and this fighter",
                409, "CHALLENGE_EXISTS"⟩) ↔
      (existsBetweenUsers
        [{ id := 5, challenger := 1, challenged := 2, status := .pending,
           messages := [{ sender := some 1, message := "hi", timestamp := 0,
                          isSystemMessage := false }] }] 1 2).isSome = true) ∧
    ((existsBetweenUsers
        [{ id := 5, challenger := 1, challenged := 2, status := .pending,
           messages := [{ sender := some 1, message := "hi", timestamp := 0,
                          isSystemMessage := false }] }] 1 2).isSome = true ↔
      ∃ c ∈ [{ id := 5, challenger := 1, challenged := 2, status := .pending,
               messages := [{ sender := some 1, message := "hi", timestamp := 0,
                              isSystemMessage := false }] }],
        ((Challenge.challenger c = 1 ∧ Challenge.challenged c = 2) ∨
         (Challenge.challenger c = 2 ∧ Challenge.challenged c = 1)) ∧
        (Challenge.status c = Status.pending ∨ Challenge.status c = Status.accepted)) :=
  C4_amended
    [{ id := 1, username := "a", email := "a@x", password := "p", role := .fighter,
       isFighter := true },
     { id := 2, username := "b", email := "b@x", password := "p", role := .fighter,
       isFighter := true }]
    [{ id := 5, challenger := 1, challenged := 2, status := .pending,
       messages := [{ sender := some 1, message := "hi", timestamp := 0,
                      isSystemMessage := false }] }] 1 2
    { id := 1, username := "a", email := "a@x", password := "p", role := .fighter,
      isFighter := true }
    { id := 2, username := "b", email := "b@x", password := "p", role := .fighter,
      isFighter := true } {} "again" 9 5
    (by decide) (by decide) (by decide) (by decide) (by decide)

theorem accept_pending_ok {c : Challenge} {rm : String} {now : Nat}
    (hst : c.status = .pending) (hne : c.challenger ≠ c.challenged)
    (hv : challengeValid now (c.acceptDoc rm now) = true) :
    c.accept rm now = .ok { c.acceptDoc rm now with updatedAt := now } := by
  simp only [Challenge.accept, hst]
  rw [if_neg (by simp)]
  simp only [Challenge.save]
  split
  · rename_i h
    exact absurd h hne
  · split
    · rfl
    · rename_i h
      exact absurd hv h

/-- C5: accepting a pending challenge as its challenged participant
succeeds, sets status accepted and responseDetails.respondedAt, and
appends exactly one system message; a different actor gets the
authorization error; a non-pending status gets the invalid-state error
naming the current status (surfaced with code CHALLENGE_ACTION_ERROR). -/
theorem C5_accept_contract :
    (∀ store cid c uid rm now,
       findChallenge store cid = some c → c.status = .pending → uid = c.challenged →
       c.challenger ≠ c.challenged →
       challengeValid now (c.acceptDoc rm now) = true →
       ∃ d, acceptChallenge store cid uid rm now = (.ok d, saveToStore store d) ∧
         d.status = .accepted ∧
         d.responseDetails.respondedAt = some now ∧
         d.messages.length = c.messages.length + 1 ∧
         ∃ m, d.messages = c.messages ++ [m] ∧ m.isSystemMessage = true) ∧
    (∀ store cid c uid rm now,
       findChallenge store cid = some c → uid ≠ c.challenged →
       acceptChallenge store cid uid rm now =
         (.error ⟨"You can only accept challenges sent to you", 403, "NOT_AUTHORIZED"⟩, store)) ∧
    (∀ store cid c uid rm now,
       findChallenge store cid = some c → uid = c.challenged → c.status ≠ .pending →
       acceptChallenge store cid uid rm now =
         (.error ⟨"Challenge cannot be accepted - current status: " ++ c.status.toStr,
                  400, "CHALLENGE_ACTION_ERROR"⟩, store)) := by
  refine ⟨?_, ?_, ?_⟩
  · intro store cid c uid rm now h1 h2 h3 h4 h5
    subst h3
    refine ⟨{ c.acceptDoc rm now with updatedAt := now }, ?_, rfl, rfl, ?_, ?_⟩
    · simp only [acceptChallenge, h1]
      rw [if_neg (by simp)]
      rw [accept_pending_ok h2 h4 h5]
    · show (c.acceptDoc rm now).messages.length = _
      simp [Challenge.acceptDoc, Challenge.pushMessage]
    · exact ⟨_, rfl, rfl⟩
  · intro store cid c uid rm now h1 h2
    simp only [acceptChallenge, h1]
    rw [if_pos (Ne.symm h2)]
  · intro store cid c uid rm now h1 h2 h3
    subst h2
    simp [acceptChallenge, h1, Challenge.accept, h3]

/-- Witness for C5 at a concrete pending challenge accepted by its
challenged fighter. -/
theorem C5_accept_contract_witness :
    ∃ d, acceptChallenge
        [{ id := 11, challenger := 1, challenged := 2, status := .pending,
           messages := [{ sender := some 1, message := "hi", timestamp := 0,
                          isSystemMessage := false }] }] 11 2 "ok" 5 =
        (.ok d, saveToStore
          [{ id := 11, challenger := 1, challenged := 2, status := .pending,
             messages := [{ sender := some 1, message := "hi", timestamp := 0,
                            isSystemMessage := false }] }] d) ∧
      d.status = .accepted ∧
      d.responseDetails.respondedAt = some 5 ∧
      d.messages.length =
        ([{ sender := some 1, message := "hi", timestamp := 0,
            isSystemMessage := false }] : List Message).length + 1 ∧
      ∃ m, d.messages =
          [{ sender := some 1, message := "hi", timestamp := 0,
             isSystemMessage := false }] ++ [m] ∧ m.isSystemMessage = true :=
  C5_accept_contract.1
    [{ id := 11, challenger := 1, challenged := 2, status := .pending,
       messages := [{ sender := some 1, message := "hi", timestamp := 0,
                      isSystemMessage := false }] }] 11
    { id := 11, challenger := 1, challenged := 2, status := .pending,
      messages := [{ sender := some 1, message := "hi", timestamp := 0,
                     isSystemMessage := false }] } 2 "ok" 5
    (by decide) (by decide) (by decide) (by decide) (by decide)

theorem accept_ok_status {c d : Challenge} {rm : String} {now : Nat}
    (h : c.accept rm now = .ok d) : d.status = .accepted := by
  simp only [Challenge.accept] at h
  split at h
  · exact absurd h (by simp)
  · have he := save_ok_fields h
    subst he
    rfl

theorem decline_ok_status {c d : Challenge} {rm : String} {now : Nat}
    (h : c.decline rm now = .ok d) : d.status = .declined := by
  simp only [Challenge.decline] at h
  split at h
  · exact absurd h (by simp)
  · have he := save_ok_fields h
    subst he
    rfl

theorem cancel_ok_status {c d : Challenge} {rs : String} {now : Nat}
    (h : c.cancel rs now = .ok d) : d.status = .cancelled := by
  simp only [Challenge.cancel] at h
  split at h
  · exact absurd h (by simp)
  · have he := save_ok_fields h
    subst he
    rfl

theorem addMessage_ok_status {c d : Challenge} {uid : Nat} {text : String} {now : Nat}
    (h : c.addMessage uid text now = .ok d) : d.status = c.status := by
  simp only [Challenge.addMessage] at h
  have he := save_ok_fields h
  subst he
  rfl

theorem accept_store_status {store : List Challenge} {cid uid : Nat} {rm : String}
    {now : Nat} {x : Challenge}
    (hx : x ∈ (acceptChallenge store cid uid rm now).2) :
    x ∈ store ∨ x.status = .accepted := by
  simp only [acceptChallenge] at hx
  split at hx
  · exact Or.inl hx
  · split at hx
    · exact Or.inl hx
    · split at hx
      · exact Or.inl hx
      · rename_i d hd
        rcases mem_saveToStore hx with h | h
        · exact Or.inr (h ▸ accept_ok_status hd)
        · exact Or.inl h

theorem decline_store_status {store : List Challenge} {cid uid : Nat} {rm : String}
    {now : Nat} {x : Challenge}
    (hx : x ∈ (declineChallenge store cid uid rm now).2) :
    x ∈ store ∨ x.status = .declined := by
  simp only [declineChallenge] at hx
  split at hx
  · exact Or.inl hx
  · split at hx
    · exact Or.inl hx
    · split at hx
      · exact Or.inl hx
      · rename_i d hd
        rcases mem_saveToStore hx with h | h
        · exact Or.inr (h ▸ decline_ok_status hd)
        · exact Or.inl h

theorem cancel_store_status {store : List Challenge} {cid uid : Nat} {rs : String}
    {now : Nat} {x : Challenge}
    (hx : x ∈ (cancelChallenge store cid uid rs now).2) :
    x ∈ store ∨ x.status = .cancelled := by
  simp only [cancelChallenge] at hx
  split at hx
  · exact Or.inl hx
  · split at hx
    · exact Or.inl hx
    · split at hx
      · exact Or.inl hx
      · rename_i d hd
        rcases mem_saveToStore hx with h | h
        · exact Or.inr (h ▸ cancel_ok_status hd)
        · exact Or.inl h

theorem create_store_status {users : List User} {store : List Challenge}
    {a b nid now : Nat} {fd : FightDetails} {msg : String} {x : Challenge}
    (hx : x ∈ (createChallenge users store a b fd msg nid now).2) :
    x ∈ store ∨ x.status = .pending := by
  simp only [createChallenge] at hx
  split at hx
  · exact Or.inl hx
  · split at hx
    · exact Or.inl hx
    · split at hx
      · exact Or.inl hx
      · split at hx
        · exact Or.inl hx
        · split at hx
          · exact Or.inl hx
          · split at hx
            · exact Or.inl hx
            · split at hx
              · exact Or.inl hx
              · rename_i c2 hc2
                rcases List.mem_append.mp hx with h | h
                · exact Or.inl h
                · have hx2 := List.mem_singleton.mp h
                  subst hx2
                  have he := save_ok_fields hc2
                  subst he
                  exact Or.inr rfl

theorem update_store_status {users : List User} {store : List Challenge}
    {cid uid now : Nat} {fd : FightDetails} {x : Challenge}
    (hx : x ∈ (updateChallengeDetails users store cid uid fd now).2) :
    x ∈ store ∨ x.status = .pending ∨ x.status = .accepted := by
  simp only [updateChallengeDetails] at hx
  split at hx
  · exact Or.inl hx
  · rename_i c hc
    split at hx
    · exact Or.inl hx
    · split at hx
      · exact Or.inl hx
      · rename_i hno hst
        split at hx
        · exact Or.inl hx
        · rename_i d hd
          rcases mem_saveToStore hx with h | h
          · right
            rw [h, save_ok_fields hd]
            exact not_not.mp hst
          · exact Or.inl h

theorem addMessage_store_status {store : List Challenge}
    {cid uid now : Nat} {msg : String} {x : Challenge}
    (hx : x ∈ (addMessageToChallenge store cid uid msg now).2) :
    x ∈ store ∨ x.status = .pending ∨ x.status = .accepted := by
  simp only [addMessageToChallenge] at hx
  split at hx
  · exact Or.inl hx
  · rename_i c hc
    split at hx
    · exact Or.inl hx
    · split at hx
      · exact Or.inl hx
      · rename_i hno hst
        split at hx
        · exact Or.inl hx
        · rename_i d hd
          rcases mem_saveToStore hx with h | h
          · right
            rw [h, addMessage_ok_status hd]
            exact not_not.mp hst
          · exact Or.inl h

theorem save_ok_of_valid {c : Challenge} {now : Nat}
    (hne : c.challenger ≠ c.challenged) (hv : challengeValid now c = true) :
    c.save now = .ok { c with updatedAt := now } := by
  simp only [Challenge.save]
  split
  · rename_i h
    exact absurd h hne
  · split
    · rfl
    · rename_i h
      exact absurd hv h

/-- C6: challengeSchema requires messages.sender, while complete()
appends a message with sender null, so complete never succeeds for any
challenge in any status, and every stored collection reachable through
the workflow operations keeps every challenge's status off completed. -/
theorem C6_complete_never_succeeds :
    (∀ (c : Challenge) fid now, ∃ e, c.complete fid now = .error e) ∧
    (∀ users store a b fd msg nid now, (∀ x ∈ store, x.status ≠ .completed) →
       ∀ x ∈ (createChallenge users store a b fd msg nid now).2, x.status ≠ .completed) ∧
    (∀ store cid uid rm now, (∀ x ∈ store, x.status ≠ .completed) →
       ∀ x ∈ (acceptChallenge store cid uid rm now).2, x.status ≠ .completed) ∧
    (∀ store cid uid rm now, (∀ x ∈ store, x.status ≠ .completed) →
       ∀ x ∈ (declineChallenge store cid uid rm now).2, x.status ≠ .completed) ∧
    (∀ store cid uid rs now, (∀ x ∈ store, x.status ≠ .completed) →
       ∀ x ∈ (cancelChallenge store cid uid rs now).2, x.status ≠ .completed) ∧
    (∀ users store cid uid fd now, (∀ x ∈ store, x.status ≠ .completed) →
       ∀ x ∈ (updateChallengeDetails users store cid uid fd now).2, x.status ≠ .completed) ∧
    (∀ store cid uid msg now, (∀ x ∈ store, x.status ≠ .completed) →
       ∀ x ∈ (addMessageToChallenge store cid uid msg now).2, x.status ≠ .completed) := by
  refine ⟨?_, ?_, ?_, ?_, ?_, ?_, ?_⟩
  · intro c fid now
    simp only [Challenge.complete]
    split
    · exact ⟨_, rfl⟩
    · simp only [Challenge.save]
      split
      · exact ⟨_, rfl⟩
      · split
        · rename_i hv
          exfalso
          simp [challengeValid, Challenge.pushMessage, validMessage] at hv
        · exact ⟨_, rfl⟩
  · intro users store a b fd msg nid now hinv x hx
    rcases create_store_status hx with h | h
    · exact hinv x h
    · simp [h]
  · intro store cid uid rm now hinv x hx
    rcases accept_store_status hx with h | h
    · exact hinv x h
    · simp [h]
  · intro store cid uid rm now hinv x hx
    rcases decline_store_status hx with h | h
    · exact hinv x h
    · simp [h]
  · intro store cid uid rs now hinv x hx
    rcases cancel_store_status hx with h | h
    · exact hinv x h
    · simp [h]
  · intro users store cid uid fd now hinv x hx
    rcases update_store_status hx with h | h | h
    · exact hinv x h
    · simp [h]
    · simp [h]
  · intro store cid uid msg now hinv x hx
    rcases addMessage_store_status hx with h | h | h
    · exact hinv x h
    · simp [h]
    · simp [h]

/-- Witness for C6: complete fails on a concrete accepted challenge, and
accepting a concrete pending challenge keeps the store free of
completed statuses. -/
theorem C6_complete_never_succeeds_witness :
    (∃ e, Challenge.complete
      { id := 10, challenger := 1, challenged := 2, status := .accepted,
        messages := [{ sender := some 1, message := "hi", timestamp := 0,
                       isSystemMessage := false }] } (some 3) 5 = .error e) ∧
    ∀ x ∈ (acceptChallenge
      [{ id := 11, challenger := 1, challenged := 2, status := .pending,
         messages := [{ sender := some 1, message := "hi", timestamp := 0,
                        isSystemMessage := false }] }] 11 2 "ok" 5).2,
      x.status ≠ .completed :=
  ⟨C6_complete_never_succeeds.1
    { id := 10, challenger := 1, challenged := 2, status := .accepted,
      messages := [{ sender := some 1, message := "hi", timestamp := 0,
                     isSystemMessage := false }] } (some 3) 5,
   C6_complete_never_succeeds.2.2.1
    [{ id := 11, challenger := 1, challenged := 2, status := .pending,
       messages := [{ sender := some 1, message := "hi", timestamp := 0,
                      isSystemMessage := false }] }] 11 2 "ok" 5 (by decide)⟩

/-- C7: updating fight details as a participant of a pending or
accepted challenge shallow-merges the supplied fields into the existing
fightDetails (supplied fields take the new value, omitted fields keep
their previous value) and appends a system message naming the updating
actor. -/
theorem C7_update_details_merge :
    ∀ users store cid c uid fd now,
      findChallenge store cid = some c →
      (c.challenger = uid ∨ c.challenged = uid) →
      (c.status = .pending ∨ c.status = .accepted) →
      c.challenger ≠ c.challenged →
      challengeValid now
        (({ c with fightDetails := c.fightDetails.merge fd }).pushMessage (some uid)
          ((if c.challenger = uid then usernameOf users c.challenger
            else usernameOf users c.challenged) ++ " updated the fight details") true now) = true →
      ∃ d, updateChallengeDetails users store cid uid fd now = (.ok d, saveToStore store d) ∧
        d.fightDetails = c.fightDetails.merge fd ∧
        (∀ v, fd.proposedDate = some v → d.fightDetails.proposedDate = some v) ∧
        (fd.proposedDate = none → d.fightDetails.proposedDate = c.fightDetails.proposedDate) ∧
        (∀ v, fd.location = some v → d.fightDetails.location = some v) ∧
        (fd.location = none → d.fightDetails.location = c.fightDetails.location) ∧
        (∀ v, fd.rules = some v → d.fightDetails.rules = some v) ∧
        (fd.rules = none → d.fightDetails.rules = c.fightDetails.rules) ∧
        (∀ v, fd.weightClass = some v → d.fightDetails.weightClass = some v) ∧
        (fd.weightClass = none → d.fightDetails.weightClass = c.fightDetails.weightClass) ∧
        (∀ v, fd.stakes = some v → d.fightDetails.stakes = some v) ∧
        (fd.stakes = none → d.fightDetails.stakes = c.fightDetails.stakes) ∧
        d.messages = c.messages ++
          [{ sender := some uid,
             message := (if c.challenger = uid then usernameOf users c.challenger
                         else usernameOf users c.challenged) ++ " updated the fight details",
             timestamp := now, isSystemMessage := true }] := by
  intro users store cid c uid fd now h1 h2 h3 h4 h5
  refine ⟨{ ({ c with fightDetails := c.fightDetails.merge fd }).pushMessage (some uid)
            ((if c.challenger = uid then usernameOf users c.challenger
              else usernameOf users c.challenged) ++ " updated the fight details") true now
            with updatedAt := now }, ?_, rfl, ?_, ?_, ?_, ?_, ?_, ?_, ?_, ?_, ?_, ?_, rfl⟩
  · simp only [updateChallengeDetails, h1]
    rw [if_neg (not_not_intro h2), if_neg (not_not_intro h3)]
    have hsave := @save_ok_of_valid
      (({ c with fightDetails := c.fightDetails.merge fd }).pushMessage (some uid)
        ((if c.challenger = uid then usernameOf users c.challenger
          else usernameOf users c.challenged) ++ " updated the fight details") true now)
      now h4 h5
    rw [hsave]
  · intro v hv
    show (c.fightDetails.merge fd).proposedDate = some v
    simp [FightDetails.merge, hv]
  · intro hv
    show (c.fightDetails.merge fd).proposedDate = _
    simp [FightDetails.merge, hv]
  · intro v hv
    show (c.fightDetails.merge fd).location = some v
    simp [FightDetails.merge, hv]
  · intro hv
    show (c.fightDetails.merge fd).location = _
    simp [FightDetails.merge, hv]
  · intro v hv
    show (c.fightDetails.merge fd).rules = some v
    simp [FightDetails.merge, hv]
  · intro hv
    show (c.fightDetails.merge fd).rules = _
    simp [FightDetails.merge, hv]
  · intro v hv
    show (c.fightDetails.merge fd).weightClass = some v
    simp [FightDetails.merge, hv]
  · intro hv
    show (c.fightDetails.merge fd).weightClass = _
    simp [FightDetails.merge, hv]
  · intro v hv
    show (c.fightDetails.merge fd).stakes = some v
    simp [FightDetails.merge, hv]
  · intro hv
    show (c.fightDetails.merge fd).stakes = _
    simp [FightDetails.merge, hv]

/-- Witness for C7: updating only the location of a challenge whose
existing rules are "Y" keeps the rules and sets the location. -/
theorem C7_update_details_merge_witness :
    ∃ d, updateChallengeDetails
        [{ id := 1, username := "alice", email := "a@x", password := "p", role := .fighter,
           isFighter := true },
         { id := 2, username := "bob", email := "b@x", password := "p", role := .fighter,
           isFighter := true }]
        [{ id := 21, challenger := 1, challenged := 2, status := .accepted,
           fightDetails := { rules := some "Y" },
           messages := [{ sender := some 1, message := "hi", timestamp := 0,
                          isSystemMessage := false }] }] 21 1 { location := some "X" } 9 =
        (.ok d, saveToStore
          [{ id := 21, challenger := 1, challenged := 2, status := .accepted,
             fightDetails := { rules := some "Y" },
             messages := [{ sender := some 1, message := "hi", timestamp := 0,
                            isSystemMessage := false }] }] d) ∧
      d.fightDetails.location = some "X" ∧
      d.fightDetails.rules = some "Y" := by
  obtain ⟨d, hop, hmerge, hp1, hp2, hlocS, hlocN, hrulS, hrulN, hw1, hw2, hs1, hs2, hmsg⟩ :=
    C7_update_details_merge
      [{ id := 1, username := "alice", email := "a@x", password := "p", role := .fighter,
         isFighter := true },
       { id := 2, username := "bob", email := "b@x", password := "p", role := .fighter,
         isFighter := true }]
      [{ id := 21, challenger := 1, challenged := 2, status := .accepted,
         fightDetails := { rules := some "Y" },
         messages := [{ sender := some 1, message := "hi", timestamp := 0,
                        isSystemMessage := false }] }] 21
      { id := 21, challenger := 1, challenged := 2, status := .accepted,
        fightDetails := { rules := some "Y" },
        messages := [{ sender := some 1, message := "hi", timestamp := 0,
                       isSystemMessage := false }] } 1 { location := some "X" } 9
      (by decide) (by decide) (by decide) (by decide) (by decide)
  exact ⟨d, hop, hlocS "X" rfl, hrulN rfl⟩

/-- C8: the query of getMyChallenges only ever matches challenges in
which the user is the challenger or the challenged, for every choice of
the role and status filters, and with no filters its match set (and that
of getUserChallenges) is exactly the set of challenges where the user is
challenger or challenged. -/
theorem C8_list_for_user :
    (∀ store u role status c, c ∈ getMyChallenges store u role status →
       c.challenger = u ∨ c.challenged = u) ∧
    (∀ store u, getMyChallenges store u none none =
       store.filter (fun c => decide (c.challenger = u ∨ c.challenged = u))) ∧
    (∀ store u status c, c ∈ getUserChallenges store u status →
       c.challenger = u ∨ c.challenged = u) ∧
    (∀ store u, getUserChallenges store u none =
       store.filter (fun c => decide (c.challenger = u ∨ c.challenged = u))) := by
  refine ⟨?_, ?_, ?_, ?_⟩
  · intro store u role status c hc
    simp only [getMyChallenges, List.mem_filter] at hc
    obtain ⟨-, hm⟩ := hc
    simp only [myChallengesMatch, Bool.and_eq_true] at hm
    obtain ⟨hrole, -⟩ := hm
    by_cases h1 : role = some "challenger"
    · rw [if_pos h1] at hrole
      exact Or.inl (of_decide_eq_true hrole)
    · rw [if_neg h1] at hrole
      by_cases h2 : role = some "challenged"
      · rw [if_pos h2] at hrole
        exact Or.inr (of_decide_eq_true hrole)
      · rw [if_neg h2] at hrole
        exact of_decide_eq_true hrole
  · intro store u
    unfold getMyChallenges
    apply List.filter_congr
    intro c _
    simp [myChallengesMatch]
  · intro store u status c hc
    simp only [getUserChallenges, List.mem_filter, Bool.and_eq_true] at hc
    exact of_decide_eq_true hc.2.1
  · intro store u
    unfold getUserChallenges
    apply List.filter_congr
    intro c _
    simp

/-- Witness for C8: a store with one challenge involving user 1 and one
not involving them. -/
theorem C8_list_for_user_witness :
    (Challenge.challenger
      { id := 1, challenger := 1, challenged := 2, status := .pending, messages := [] } = 1 ∨
     Challenge.challenged
      { id := 1, challenger := 1, challenged := 2, status := .pending, messages := [] } = 1) ∧
    getMyChallenges
      [{ id := 1, challenger := 1, challenged := 2, status := .pending, messages := [] },
       { id := 2, challenger := 3, challenged := 4, status := .pending, messages := [] }] 1
      none none =
      List.filter (fun c => decide (c.challenger = 1 ∨ c.challenged = 1))
        [{ id := 1, challenger := 1, challenged := 2, status := .pending, messages := [] },
         { id := 2, challenger := 3, challenged := 4, status := .pending, messages := [] }] :=
  ⟨C8_list_for_user.1
     [{ id := 1, challenger := 1, challenged := 2, status := .pending, messages := [] },
      { id := 2, challenger := 3, challenged := 4, status := .pending, messages := [] }] 1
     none none
     { id := 1, challenger := 1, challenged := 2, status := .pending, messages := [] }
     (by decide),
   C8_list_for_user.2.1
     [{ id := 1, challenger := 1, challenged := 2, status := .pending, messages := [] },
      { id := 2, challenger := 3, challenged := 4, status := .pending, messages := [] }] 1⟩

theorem step_shape {s s' : List User} (hs : Step s s')
    (hnd : (s.map (fun u => u.id)).Nodup) :
    (∃ t, s' = s ++ t) ∨
    (∃ f, s' = s.map f ∧ ∀ x ∈ s, x.role = .fighter → (f x).role = .fighter) := by
  cases hs with
  | signup un em pw newId =>
    simp only [signup]
    split
    · exact Or.inl ⟨[], by simp⟩
    · exact Or.inl ⟨_, rfl⟩
  | becomeFighter uid =>
    simp only [stepIntoTheCage]
    split
    · exact Or.inl ⟨[], by simp⟩
    · rename_i u0 hu0
      split
      · exact Or.inl ⟨[], by simp⟩
      · right
        refine ⟨fun x => if x.id = ({ u0 with isFighter := true, role := .fighter } : User).id
                  then { u0 with isFighter := true, role := .fighter } else x, rfl, ?_⟩
        intro x _ hx
        dsimp only
        split
        · rfl
        · exact hx
  | updateProfile uid upd =>
    simp only [updateMyProfile]
    split
    · exact Or.inl ⟨[], by simp⟩
    · split
      · exact Or.inl ⟨[], by simp⟩
      · rename_i u0 hu0
        right
        refine ⟨fun x => if x.id = (applyProfileUpdate u0 upd).id
                  then applyProfileUpdate u0 upd else x, rfl, ?_⟩
        intro x hmem hx
        dsimp only
        split
        · rename_i hid
          have hu0m := List.mem_of_find?_eq_some hu0
          have hu0id : u0.id = uid := by
            have := List.find?_some hu0
            exact of_decide_eq_true this
          have hxu0 : x = u0 := by
            apply List.inj_on_of_nodup_map hnd hmem hu0m
            simpa [applyProfileUpdate] using hid
          show (applyProfileUpdate u0 upd).role = .fighter
          have : u0.role = Role.fighter := hxu0 ▸ hx
          simpa [applyProfileUpdate] using this
        · exact hx
  | updateFighter uid upd =>
    simp only [updateFighterProfile]
    split
    · exact Or.inl ⟨[], by simp⟩
    · rename_i u0 hu0
      split
      · exact Or.inl ⟨[], by simp⟩
      · right
        refine ⟨fun x => if x.id = (applyFighterUpdate u0 upd).id
                  then applyFighterUpdate u0 upd else x, rfl, ?_⟩
        intro x hmem hx
        dsimp only
        split
        · rename_i hid
          have hu0m := List.mem_of_find?_eq_some hu0
          have hxu0 : x = u0 := by
            apply List.inj_on_of_nodup_map hnd hmem hu0m
            simpa [applyFighterUpdate] using hid
          show (applyFighterUpdate u0 upd).role = .fighter
          have : u0.role = Role.fighter := hxu0 ▸ hx
          simpa [applyFighterUpdate] using this
        · exact hx

/-- C9: becoming a fighter fails when the account already is one and
otherwise sets role and isFighter together in one update; every account
store reachable through signup, become-fighter and the two profile
updates keeps isFighter true exactly when role is fighter; and no
operation moves an account (identified by its position, with unique
stored ids) from role fighter back to fan. -/
theorem C9_become_fighter_invariant :
    (∀ users uid u, findUser users uid = some u → u.isFighter = true →
       stepIntoTheCage users uid =
         (.error ⟨"You are already a fighter!", 400, "ALREADY_FIGHTER"⟩, users)) ∧
    (∀ users uid u, findUser users uid = some u → u.isFighter = false →
       ∃ u2, stepIntoTheCage users uid = (.ok u2, saveUser users u2) ∧
         u2.role = .fighter ∧ u2.isFighter = true) ∧
    (∀ users, Reachable users → ∀ u ∈ users, (u.isFighter = true ↔ u.role = .fighter)) ∧
    (∀ s s', Step s s' → (s.map (fun u => u.id)).Nodup →
       ∀ i (h : i < s.length) (h' : i < s'.length),
         (s.get ⟨i, h⟩).role = .fighter → (s'.get ⟨i, h'⟩).role = .fighter) := by
  refine ⟨?_, ?_, ?_, ?_⟩
  · intro users uid u h1 h2
    simp [stepIntoTheCage, h1, h2]
  · intro users uid u h1 h2
    refine ⟨{ u with isFighter := true, role := .fighter }, ?_, rfl, rfl⟩
    simp [stepIntoTheCage, h1, h2]
  · intro s0 hr
    induction hr with
    | base =>
      intro u hu
      exact absurd hu (List.not_mem_nil u)
    | step hr0 hs ih =>
      cases hs with
      | signup un em pw newId =>
        intro u hu
        simp only [signup] at hu
        split at hu
        · exact ih u hu
        · rcases List.mem_append.mp hu with hmem | hmem
          · exact ih u hmem
          · have hx := List.mem_singleton.mp hmem
            subst hx
            simp
      | becomeFighter uid =>
        intro u hu
        simp only [stepIntoTheCage] at hu
        split at hu
        · exact ih u hu
        · split at hu
          · exact ih u hu
          · rcases mem_saveUser hu with hx | hmem
            · subst hx
              simp
            · exact ih u hmem
      | updateProfile uid upd =>
        intro u hu
        simp only [updateMyProfile] at hu
        split at hu
        · exact ih u hu
        · split at hu
          · exact ih u hu
          · rename_i u0 hu0
            rcases mem_saveUser hu with hx | hmem
            · subst hx
              exact ih u0 (List.mem_of_find?_eq_some hu0)
            · exact ih u hmem
      | updateFighter uid upd =>
        intro u hu
        simp only [updateFighterProfile] at hu
        split at hu
        · exact ih u hu
        · rename_i u0 hu0
          split at hu
          · exact ih u hu
          · rcases mem_saveUser hu with hx | hmem
            · subst hx
              exact ih u0 (List.mem_of_find?_eq_some hu0)
            · exact ih u hmem
  · intro s s' hs hnd i h h' hrole
    rcases step_shape hs hnd with ⟨t, rfl⟩ | ⟨f, rfl, hf⟩
    · simp only [List.get_eq_getElem] at hrole ⊢
      rw [List.getElem_append_left h]
      exact hrole
    · simp only [List.get_eq_getElem, List.getElem_map] at hrole ⊢
      exact hf _ (List.getElem_mem h) hrole

/-- Witness for C9 at a one-user store: the already-fighter failure, the
fan-to-fighter success, the invariant on a reachable store, and
no-demotion across one concrete step. -/
theorem C9_become_fighter_invariant_witness :
    stepIntoTheCage
      [{ id := 1, username := "a", email := "a@x", password := "p", role := .fighter,
         isFighter := true }] 1 =
      (.error ⟨"You are already a fighter!", 400, "ALREADY_FIGHTER"⟩,
       [{ id := 1, username := "a", email := "a@x", password := "p", role := .fighter,
          isFighter := true }]) ∧
    (∃ u2, stepIntoTheCage
      [{ id := 2, username := "b", email := "b@x", password := "p" }] 2 =
      (.ok u2, saveUser [{ id := 2, username := "b", email := "b@x", password := "p" }] u2) ∧
      u2.role = .fighter ∧ u2.isFighter = true) ∧
    (∀ u ∈ ([] : List User), (u.isFighter = true ↔ u.role = .fighter)) ∧
    (∀ i (h : i < ([{ id := 1, username := "a", email := "a@x", password := "p",
                      role := .fighter, isFighter := true }] : List User).length)
       (h' : i < ((stepIntoTheCage
          [{ id := 1, username := "a", email := "a@x", password := "p", role := .fighter,
             isFighter := true }] 1).2).length),
       (([{ id := 1, username := "a", email := "a@x", password := "p", role := .fighter,
            isFighter := true }] : List User).get ⟨i, h⟩).role = .fighter →
       (((stepIntoTheCage
          [{ id := 1, username := "a", email := "a@x", password := "p", role := .fighter,
             isFighter := true }] 1).2).get ⟨i, h'⟩).role = .fighter) :=
  ⟨C9_become_fighter_invariant.1
     [{ id := 1, username := "a", email := "a@x", password := "p", role := .fighter,
        isFighter := true }] 1
     { id := 1, username := "a", email := "a@x", password := "p", role := .fighter,
       isFighter := true } (by decide) (by decide),
   C9_become_fighter_invariant.2.1
     [{ id := 2, username := "b", email := "b@x", password := "p" }] 2
     { id := 2, username := "b", email := "b@x", password := "p" } (by decide) (by decide),
   C9_become_fighter_invariant.2.2.1 [] Reachable.base,
   C9_become_fighter_invariant.2.2.2
     [{ id := 1, username := "a", email := "a@x", password := "p", role := .fighter,
        isFighter := true }] _
     (Step.becomeFighter
       [{ id := 1, username := "a", email := "a@x", password := "p", role := .fighter,
          isFighter := true }] 1) (by decide)⟩

end BYF
